import Mathlib

/-!
Verification of the inventory ledger model of `src/main.py`
(a Streamlit + Supabase single-user inventory app).

The two persisted collections (`items` and `transactions`) are modelled as
lists carried in a `Store` record together with the next surrogate ids the
backend would assign (Supabase serial ids start at 1 and grow).  Each CRUD
helper of the source file is translated to a Lean function over `Store`:

* `add_item`          — `add_item` (src/main.py lines 34-50)
* `update_quantity`   — `update_quantity` (lines 52-72)
* `delete_item`       — `delete_item` (lines 74-76)
* `clear_all`         — the "Clear all data" button body (lines 232-236)
* `low_stock_filter`  — the `qty <= restock_threshold` filters (lines 160-161
                        and 250-253)
* `importRow` / `importCSV` — the "Import CSV into inventory" loop
                        (lines 288-314)

Python `int(...)`/`float(...)` applied to CSV cells are modelled by
`pyInt`/`pyFloat` on the raw cell strings; a `none` result models the
`ValueError` that aborts the import loop.  Prices are modelled as rationals.
-/

namespace Inventory

/-- An `items` row.  `created_at` is backend-assigned and never read by the
operations under study, so it is omitted. -/
structure Item where
  id : Nat
  name : String
  category : String
  qty : Int
  price : Rat
  restock_threshold : Int
  deriving Repr, DecidableEq

/-- A `transactions` row.  `timestamp` is backend-assigned and only used for
display ordering, so it is omitted. -/
structure Txn where
  id : Nat
  item_id : Nat
  change : Int
  note : String
  deriving Repr, DecidableEq

/-- The persisted state: both tables plus the serial counters the backend
uses to assign fresh surrogate ids (Supabase serials start at 1). -/
structure Store where
  items : List Item
  txns : List Txn
  nextItemId : Nat
  nextTxnId : Nat
  deriving Repr, DecidableEq

/-- The empty store, as created by a fresh backend. -/
def initStore : Store := ⟨[], [], 1, 1⟩

/-- `add_item(name, category, qty, price, restock_threshold)`
(src/main.py lines 34-50): inserts the item row, then inserts the paired
transaction with `change = qty` and note `"Initial stock: <qty>"`. -/
def add_item (name category : String) (qty : Int) (price : Rat)
    (restock_threshold : Int) (s : Store) : Store :=
  let item_id := s.nextItemId
  { s with
    items := s.items ++ [⟨item_id, name, category, qty, price, restock_threshold⟩]
    nextItemId := s.nextItemId + 1
    txns := s.txns ++ [⟨s.nextTxnId, item_id, qty, "Initial stock: " ++ toString qty⟩]
    nextTxnId := s.nextTxnId + 1 }

/-- `update_quantity(item_id, delta, note)` (src/main.py lines 52-72):
reads the current qty of the row with the given id, clamps
`new_qty = max(current_qty + delta, 0)`, writes it back to every row with
that id, and appends a transaction carrying the requested `delta` and the
note.  When no row matches, the state is untouched and the user sees the
"Item not found" error message, returned here as the second component. -/
def update_quantity (item_id : Nat) (delta : Int) (note : String)
    (s : Store) : Store × Option String :=
  match s.items.find? (fun it => it.id == item_id) with
  | some it =>
      let new_qty := max (it.qty + delta) 0
      ({ s with
         items := s.items.map (fun x =>
           if x.id == item_id then { x with qty := new_qty } else x)
         txns := s.txns ++ [⟨s.nextTxnId, item_id, delta, note⟩]
         nextTxnId := s.nextTxnId + 1 }, none)
  | none => (s, some "Item not found")

/-- First statement of `delete_item` (src/main.py line 75): delete the item
row(s) with the given id. -/
def delete_item_phase1 (item_id : Nat) (s : Store) : Store :=
  { s with items := s.items.filter (fun it => it.id != item_id) }

/-- Second statement of `delete_item` (src/main.py line 76): delete every
transaction referencing the id. -/
def delete_item_phase2 (item_id : Nat) (s : Store) : Store :=
  { s with txns := s.txns.filter (fun t => t.item_id != item_id) }

/-- `delete_item(item_id)` (src/main.py lines 74-76): the item row first,
then the cascade over transactions. -/
def delete_item (item_id : Nat) (s : Store) : Store :=
  delete_item_phase2 item_id (delete_item_phase1 item_id s)

/-- The "Clear all data" button body (src/main.py lines 232-236):
`delete().neq("id", 0)` on `transactions`, then on `items` — every row whose
`id` differs from 0 is deleted, so only rows with `id = 0` survive. -/
def clear_all (s : Store) : Store :=
  let s1 := { s with txns := s.txns.filter (fun t => t.id == 0) }
  { s1 with items := s1.items.filter (fun it => it.id == 0) }

/-- The low-stock predicate used by the `show_only_low` filter
(src/main.py line 161) and the low-stock table (line 250):
`qty <= restock_threshold`. -/
def low_stock_filter (items : List Item) : List Item :=
  items.filter (fun it => it.qty ≤ it.restock_threshold)

/-- Value of a nonempty all-digit character list, `none` otherwise. -/
def digitsVal? (l : List Char) : Option Nat :=
  if l ≠ [] ∧ l.all (fun c => c.isDigit) then
    some (l.foldl (fun a c => 10 * a + (c.toNat - 48)) 0)
  else none

/-- Model of Python `int(cell)` on a raw CSV cell: an optional sign followed
by digits parses, anything else raises `ValueError` (here: `none`). -/
def pyInt (s : String) : Option Int :=
  match s.data with
  | '-' :: rest => (digitsVal? rest).map (fun n => -(n : Int))
  | '+' :: rest => (digitsVal? rest).map (fun n => (n : Int))
  | l => (digitsVal? l).map (fun n => (n : Int))

/-- Model of Python `float(cell)` on a raw CSV cell: an optional sign, an
integer part and an optional fractional part, as a rational; anything else
raises `ValueError` (here: `none`). -/
def pyFloat (s : String) : Option Rat :=
  let core : List Char → Option Rat := fun t =>
    match t.splitOn '.' with
    | [w] => (digitsVal? w).map (fun n => (n : Rat))
    | [w, f] =>
        match digitsVal? w, digitsVal? f with
        | some a, some b => some ((a : Rat) + (b : Rat) / ((10 : Rat) ^ f.length))
        | _, _ => none
    | _ => none
  match s.data with
  | '-' :: rest => (core rest).map (fun v => -v)
  | '+' :: rest => core rest
  | l => core l

/-- One uploaded CSV row.  `name` is required by the import; the other
columns may be absent (`none`), in which case `row.get` supplies the
defaults of src/main.py lines 296-299. -/
structure CsvRow where
  name : String
  category : Option String
  qty : Option String
  price : Option String
  restock_threshold : Option String
  deriving Repr, DecidableEq

/-- `int(row.get("qty", 0))` (src/main.py line 297): a missing column
defaults to 0, a present cell goes through `int`. -/
def rowQty (r : CsvRow) : Option Int :=
  match r.qty with
  | none => some 0
  | some c => pyInt c

/-- `float(row.get("price", 0.0))` (src/main.py line 298). -/
def rowPrice (r : CsvRow) : Option Rat :=
  match r.price with
  | none => some 0
  | some c => pyFloat c

/-- `int(row.get("restock_threshold", 3))` (src/main.py line 299). -/
def rowRestock (r : CsvRow) : Option Int :=
  match r.restock_threshold with
  | none => some 3
  | some c => pyInt c

/-- `row.get("category", "Misc")` (src/main.py line 296). -/
def rowCategory (r : CsvRow) : String := r.category.getD "Misc"

/-- The body of the import loop for one row (src/main.py lines 294-309):
parse the numeric cells (a `ValueError` aborts, modelled by `none`), look an
existing item up by exact `name`, and either apply the qty as a delta via
`update_quantity` or `add_item` a new row. -/
def importRow (r : CsvRow) (s : Store) : Option Store :=
  match rowQty r, rowPrice r, rowRestock r with
  | some q, some p, some rt =>
      some (match s.items.find? (fun it => it.name == r.name) with
        | some it => (update_quantity it.id q "Imported from CSV" s).1
        | none => add_item r.name (rowCategory r) q p rt s)
  | _, _, _ => none

/-- The "Import CSV into inventory" loop (src/main.py lines 293-314): rows
are processed in file order; the first row whose numeric cells fail to
parse raises out of the loop, which is caught by the surrounding `except`
and shown as one error message, leaving the effects of the earlier rows in
place. -/
def importCSV : List CsvRow → Store → Store × Option String
  | [], s => (s, none)
  | r :: rest, s =>
      match importRow r s with
      | some s1 => importCSV rest s1
      | none => (s, some "Failed to import CSV")

/-- A store operation, for statements quantifying over operation
sequences. -/
inductive Op where
  | create (name category : String) (qty : Int) (price : Rat) (restock : Int)
  | adjust (id : Nat) (delta : Int) (note : String)
  | delete (id : Nat)
  | imp (rows : List CsvRow)
  | clear
  deriving Repr, DecidableEq

/-- Effect of one operation on the store (error messages dropped). -/
def applyOp (op : Op) (s : Store) : Store :=
  match op with
  | .create n c q p rt => add_item n c q p rt s
  | .adjust i d note => (update_quantity i d note s).1
  | .delete i => delete_item i s
  | .imp rows => (importCSV rows s).1
  | .clear => clear_all s

/-- Run a sequence of operations from a starting store. -/
def runOps (ops : List Op) (s : Store) : Store :=
  ops.foldl (fun s op => applyOp op s) s

/-- A CSV row parses iff its three numeric cells survive `int`/`float`. -/
def RowParses (r : CsvRow) : Prop :=
  (rowQty r).isSome ∧ (rowPrice r).isSome ∧ (rowRestock r).isSome

instance : DecidablePred RowParses := fun r => by
  unfold RowParses; infer_instance

/-! ## Helper lemmas -/

/-- Writing a new quantity to every row with a given id moves `find?` on that
id to the updated first match. -/
theorem find?_qty_map {l : List Item} {i : Nat} {q : Int} {it : Item}
    (h : l.find? (fun x => x.id == i) = some it) :
    (l.map (fun x => if x.id == i then { x with qty := q } else x)).find?
      (fun x => x.id == i) = some { it with qty := q } := by
  have hit := List.find?_some h
  have hpred : ((fun x : Item => x.id == i) ∘
      (fun x : Item => if x.id == i then { x with qty := q } else x))
      = fun x : Item => x.id == i := by
    funext x
    by_cases hx : x.id = i
    · simp [Function.comp, hx]
    · simp [Function.comp, hx]
  rw [List.find?_map, hpred, h]
  simp [Option.map, hit]

end Inventory

namespace Inventory

/-! ## Claim theorems -/

/-- Claim C1: for every existing item and every integer delta,
`update_quantity` succeeds (no error message), stores
`max(current quantity + delta, 0)` for that id, and appends exactly one new
transaction whose `change` is the requested delta with the given note. -/
theorem adjustQuantity_clamps_and_logs_delta (s : Store) (i : Nat) (d : Int)
    (note : String) (it : Item)
    (h : s.items.find? (fun x => x.id == i) = some it) :
    (update_quantity i d note s).2 = none ∧
    (update_quantity i d note s).1.items.find? (fun x => x.id == i)
      = some { it with qty := max (it.qty + d) 0 } ∧
    (update_quantity i d note s).1.txns
      = s.txns ++ [⟨s.nextTxnId, i, d, note⟩] := by
  have e : update_quantity i d note s =
      ({ s with
         items := s.items.map (fun x =>
           if x.id == i then { x with qty := max (it.qty + d) 0 } else x)
         txns := s.txns ++ [⟨s.nextTxnId, i, d, note⟩]
         nextTxnId := s.nextTxnId + 1 }, none) := by
    unfold update_quantity; rw [h]
  rw [e]
  exact ⟨rfl, find?_qty_map h, rfl⟩

/-- Witness for C1: the spec scenario — `Widget` created at quantity 10,
adjusted by `-15`: stored quantity clamps to 0 while the logged change is
`-15`. -/
theorem adjustQuantity_clamps_and_logs_delta_witness :
    (update_quantity 1 (-15) "Used 1"
        (add_item "Widget" "Tools" 10 3 3 initStore)).2 = none ∧
    (update_quantity 1 (-15) "Used 1"
        (add_item "Widget" "Tools" 10 3 3 initStore)).1.items.find?
        (fun x => x.id == 1)
      = some ⟨1, "Widget", "Tools", max (10 + (-15)) 0, 3, 3⟩ ∧
    (update_quantity 1 (-15) "Used 1"
        (add_item "Widget" "Tools" 10 3 3 initStore)).1.txns
      = (add_item "Widget" "Tools" 10 3 3 initStore).txns
          ++ [⟨2, 1, -15, "Used 1"⟩] :=
  adjustQuantity_clamps_and_logs_delta _ 1 (-15) "Used 1"
    ⟨1, "Widget", "Tools", 10, 3, 3⟩ (by decide)

/-- Claim C4: adjusting a nonexistent id reports the "Item not found"
message and leaves the store untouched (no item, no transaction changes, no
crash — the operation is total and returns the unchanged state). -/
theorem adjustQuantity_missing_id_reports_error (s : Store) (i : Nat)
    (d : Int) (note : String) (h : ∀ it ∈ s.items, it.id ≠ i) :
    update_quantity i d note s = (s, some "Item not found") := by
  have hf : s.items.find? (fun x => x.id == i) = none :=
    List.find?_eq_none.mpr (fun x hx => by simpa using h x hx)
  unfold update_quantity
  rw [hf]

/-- Witness for C4: id 99 is absent from a one-item store. -/
theorem adjustQuantity_missing_id_reports_error_witness :
    update_quantity 99 (-1) "Used 1" (add_item "Widget" "Tools" 10 3 3 initStore)
      = (add_item "Widget" "Tools" 10 3 3 initStore, some "Item not found") :=
  adjustQuantity_missing_id_reports_error _ 99 (-1) "Used 1" (by decide)

/-- Counterexample to claim C5 as stated: the clear-all button issues
`delete().neq("id", 0)`, so a row whose id is 0 survives and the
collections are not empty for every possible store state. -/
theorem clear_all_zero_id_counterexample :
    (clear_all ⟨[⟨0, "Ghost", "Misc", 1, 0, 3⟩], [⟨0, 0, 1, "n"⟩], 1, 1⟩).items ≠ []
      ∧ (clear_all ⟨[⟨0, "Ghost", "Misc", 1, 0, 3⟩], [⟨0, 0, 1, "n"⟩], 1, 1⟩).txns ≠ [] := by
  decide

/-- Claim C5 (amended): clear-all deletes every transaction and then every
item whose id is not 0; whenever no row carries id 0 — true of every id the
backend assigns, since serials start at 1 — both collections end empty. -/
theorem clear_all_empties_of_no_zero_id (s : Store)
    (hi : ∀ it ∈ s.items, it.id ≠ 0) (ht : ∀ t ∈ s.txns, t.id ≠ 0) :
    (clear_all s).items = [] ∧ (clear_all s).txns = [] := by
  unfold clear_all
  constructor
  · exact List.filter_eq_nil_iff.mpr (fun it hit => by simpa using hi it hit)
  · exact List.filter_eq_nil_iff.mpr (fun t htm => by simpa using ht t htm)

/-- Witness for C5 (amended): clearing a store holding one normally created
item empties both collections. -/
theorem clear_all_empties_of_no_zero_id_witness :
    (clear_all (add_item "A" "Misc" 2 1 3 initStore)).items = [] ∧
    (clear_all (add_item "A" "Misc" 2 1 3 initStore)).txns = [] :=
  clear_all_empties_of_no_zero_id _ (by decide) (by decide)

/-- Counterexample to claim C7 as stated: on a store holding an orphaned
transaction that references id 5 while no item has id 5, `delete_item 5` is
not a no-op — it removes the orphan — so "deleting a nonexistent id is a
no-op" fails for arbitrary store states. -/
theorem delete_item_noop_counterexample :
    (∀ it ∈ (⟨[], [⟨1, 5, -1, "x"⟩], 1, 2⟩ : Store).items, it.id ≠ 5) ∧
    delete_item 5 ⟨[], [⟨1, 5, -1, "x"⟩], 1, 2⟩
      ≠ (⟨[], [⟨1, 5, -1, "x"⟩], 1, 2⟩ : Store) := by
  decide

/-- Claim C7 (amended): `delete_item` is idempotent and never errors, the
result holds zero transactions referencing the id, and deleting an id with
no item row and no transactions referencing it is a no-op (orphaned
transactions referencing the id are deleted too, so the no-op guarantee
needs both conditions). -/
theorem delete_item_idempotent (i : Nat) (s : Store) :
    delete_item i (delete_item i s) = delete_item i s ∧
    (∀ t ∈ (delete_item i s).txns, t.item_id ≠ i) ∧
    ((∀ it ∈ s.items, it.id ≠ i) → (∀ t ∈ s.txns, t.item_id ≠ i) →
      delete_item i s = s) := by
  refine ⟨?_, ?_, ?_⟩
  · simp [delete_item, delete_item_phase1, delete_item_phase2,
      List.filter_filter]
  · intro t ht
    simp only [delete_item, delete_item_phase1, delete_item_phase2,
      List.mem_filter, bne_iff_ne, ne_eq] at ht
    exact ht.2
  · intro h1 h2
    have e1 : s.items.filter (fun it => it.id != i) = s.items :=
      List.filter_eq_self.mpr (fun a ha => by simpa using h1 a ha)
    have e2 : s.txns.filter (fun t => t.item_id != i) = s.txns :=
      List.filter_eq_self.mpr (fun a ha => by simpa using h2 a ha)
    simp [delete_item, delete_item_phase1, delete_item_phase2, e1, e2]

/-- Witness for C7 (amended): deleting id 9, which no item and no
transaction of the one-item store references, is a no-op. -/
theorem delete_item_idempotent_witness :
    delete_item 9 (add_item "A" "Misc" 2 1 3 initStore)
      = add_item "A" "Misc" 2 1 3 initStore :=
  (delete_item_idempotent 9 _).2.2 (by decide) (by decide)

/-- Claim C8: membership in the low-stock filter is exactly
`quantity ≤ restock_threshold`; ties at the boundary are included since the
comparison is `≤`. -/
theorem low_stock_filter_mem_iff (items : List Item) (it : Item) :
    it ∈ low_stock_filter items ↔
      it ∈ items ∧ it.qty ≤ it.restock_threshold := by
  simp [low_stock_filter, List.mem_filter]

/-- Claim C9: `delete_item` is the transaction sweep composed after the item
row deletion; after only the first statement succeeds, a transaction that
referenced the deleted id is still present and now references an id no
remaining item carries (an orphan — the no-orphan guarantee needs both
statements to succeed). -/
theorem delete_item_phase_order_orphans (s : Store) (i : Nat) (t : Txn)
    (ht : t ∈ s.txns) (hti : t.item_id = i) :
    delete_item i s = delete_item_phase2 i (delete_item_phase1 i s) ∧
    t ∈ (delete_item_phase1 i s).txns ∧
    ∀ it ∈ (delete_item_phase1 i s).items, it.id ≠ t.item_id := by
  refine ⟨rfl, ht, ?_⟩
  intro it hit
  simp only [delete_item_phase1, List.mem_filter, bne_iff_ne, ne_eq] at hit
  rw [hti]
  exact hit.2

/-- Claim C6: `add_item` inserts exactly one item row carrying the given
fields under a fresh id no existing row carries, then exactly one paired
transaction for that id with `change` equal to the created quantity and the
"Initial stock" note. -/
theorem add_item_inserts_item_and_initial_txn (s : Store) (n c : String)
    (q : Int) (p : Rat) (rt : Int)
    (hfresh : ∀ it ∈ s.items, it.id < s.nextItemId)
    (htx : ∀ t ∈ s.txns, t.item_id < s.nextItemId) :
    (add_item n c q p rt s).items
      = s.items ++ [⟨s.nextItemId, n, c, q, p, rt⟩] ∧
    (∀ it ∈ s.items, it.id ≠ s.nextItemId) ∧
    (add_item n c q p rt s).txns
      = s.txns ++ [⟨s.nextTxnId, s.nextItemId, q,
          "Initial stock: " ++ toString q⟩] ∧
    (add_item n c q p rt s).items.filter (fun x => x.id == s.nextItemId)
      = [⟨s.nextItemId, n, c, q, p, rt⟩] ∧
    (add_item n c q p rt s).txns.filter (fun t => t.item_id == s.nextItemId)
      = [⟨s.nextTxnId, s.nextItemId, q, "Initial stock: " ++ toString q⟩] := by
  have hi : s.items.filter (fun x => x.id == s.nextItemId) = [] :=
    List.filter_eq_nil_iff.mpr
      (fun a ha => by simpa using Nat.ne_of_lt (hfresh a ha))
  have ht0 : s.txns.filter (fun t => t.item_id == s.nextItemId) = [] :=
    List.filter_eq_nil_iff.mpr
      (fun a ha => by simpa using Nat.ne_of_lt (htx a ha))
  refine ⟨rfl, fun it hit => Nat.ne_of_lt (hfresh it hit), rfl, ?_, ?_⟩
  · simp [add_item, List.filter_append, hi]
  · simp [add_item, List.filter_append, ht0]

/-- Witness for C6: adding an item to the empty store. -/
theorem add_item_inserts_item_and_initial_txn_witness :
    (add_item "A" "Misc" 2 1 3 initStore).items
      = initStore.items ++ [⟨initStore.nextItemId, "A", "Misc", 2, 1, 3⟩] ∧
    (∀ it ∈ initStore.items, it.id ≠ initStore.nextItemId) ∧
    (add_item "A" "Misc" 2 1 3 initStore).txns
      = initStore.txns ++ [⟨initStore.nextTxnId, initStore.nextItemId, 2,
          "Initial stock: " ++ toString (2 : Int)⟩] ∧
    (add_item "A" "Misc" 2 1 3 initStore).items.filter
        (fun x => x.id == initStore.nextItemId)
      = [⟨initStore.nextItemId, "A", "Misc", 2, 1, 3⟩] ∧
    (add_item "A" "Misc" 2 1 3 initStore).txns.filter
        (fun t => t.item_id == initStore.nextItemId)
      = [⟨initStore.nextTxnId, initStore.nextItemId, 2,
          "Initial stock: " ++ toString (2 : Int)⟩] :=
  add_item_inserts_item_and_initial_txn initStore "A" "Misc" 2 1 3
    (by simp [initStore]) (by simp [initStore])

/-- Claim C2: a CSV row whose numeric cells parse is reconciled by exact
name match — an existing item receives the row's qty as an incremental
delta via `update_quantity` (so quantity `c` becomes `max(c + q, 0)`, not
`q`), while an unmatched name becomes a new item via `add_item` with the
defaults `Misc`, `0`, `0.0`, `3` supplied for missing cells. -/
theorem importRow_reconciles (s : Store) (r : CsvRow) (q rt : Int) (p : Rat)
    (hq : rowQty r = some q) (hp : rowPrice r = some p)
    (hrt : rowRestock r = some rt) :
    (∀ it : Item, s.items.find? (fun x => x.name == r.name) = some it →
      s.items.find? (fun x => x.id == it.id) = some it →
      importRow r s = some (update_quantity it.id q "Imported from CSV" s).1 ∧
      (update_quantity it.id q "Imported from CSV" s).1.items.find?
          (fun x => x.id == it.id)
        = some { it with qty := max (it.qty + q) 0 }) ∧
    (s.items.find? (fun x => x.name == r.name) = none →
      importRow r s = some (add_item r.name (rowCategory r) q p rt s) ∧
      (add_item r.name (rowCategory r) q p rt s).items
        = s.items ++ [⟨s.nextItemId, r.name, rowCategory r, q, p, rt⟩]) ∧
    (r.category = none → rowCategory r = "Misc") ∧
    (r.qty = none → q = 0) ∧
    (r.price = none → p = 0) ∧
    (r.restock_threshold = none → rt = 3) := by
  refine ⟨?_, ?_, ?_, ?_, ?_, ?_⟩
  · intro it hname hid
    have hrow : importRow r s
        = some (update_quantity it.id q "Imported from CSV" s).1 := by
      unfold importRow; rw [hq, hp, hrt, hname]
    refine ⟨hrow, ?_⟩
    have e : (update_quantity it.id q "Imported from CSV" s).1.items
        = s.items.map (fun x =>
            if x.id == it.id then { x with qty := max (it.qty + q) 0 } else x) := by
      unfold update_quantity; rw [hid]
    rw [e]
    exact find?_qty_map hid
  · intro hname
    refine ⟨?_, rfl⟩
    unfold importRow; rw [hq, hp, hrt, hname]
  · intro hc; simp [rowCategory, hc]
  · intro h0
    have e : rowQty r = some 0 := by unfold rowQty; rw [h0]
    rw [e] at hq; injection hq with hq; exact hq.symm
  · intro h0
    have e : rowPrice r = some 0 := by unfold rowPrice; rw [h0]
    rw [e] at hp; injection hp with hp; exact hp.symm
  · intro h0
    have e : rowRestock r = some 3 := by unfold rowRestock; rw [h0]
    rw [e] at hrt; injection hrt with hrt; exact hrt.symm

/-- Witness for C2: importing `("Widget", "Tools", 5, 3, 3)` against an
existing `Widget` at quantity 0 yields quantity 5 — delta semantics against
the current value. -/
theorem importRow_reconciles_witness :
    importRow ⟨"Widget", some "Tools", some "5", some "3", some "3"⟩
        (add_item "Widget" "Tools" 0 3 3 initStore)
      = some (update_quantity 1 5 "Imported from CSV"
          (add_item "Widget" "Tools" 0 3 3 initStore)).1 ∧
    (update_quantity 1 5 "Imported from CSV"
        (add_item "Widget" "Tools" 0 3 3 initStore)).1.items.find?
        (fun x => x.id == 1)
      = some ⟨1, "Widget", "Tools", max (0 + 5) 0, 3, 3⟩ :=
  (importRow_reconciles (add_item "Widget" "Tools" 0 3 3 initStore)
      ⟨"Widget", some "Tools", some "5", some "3", some "3"⟩ 5 3 3
      (by decide) (by decide) (by decide)).1
    ⟨1, "Widget", "Tools", 0, 3, 3⟩ (by decide) (by decide)

/-- A row that fails to parse makes the loop body raise before any store
call, so the import aborts. -/
theorem importRow_eq_none (r : CsvRow) (s : Store) (h : ¬ RowParses r) :
    importRow r s = none := by
  unfold RowParses at h
  unfold importRow
  cases hq : rowQty r with
  | none => rfl
  | some q =>
      cases hp : rowPrice r with
      | none => rfl
      | some p =>
          cases hrt : rowRestock r with
          | none => rfl
          | some rt =>
              exact absurd ⟨by simp [hq], by simp [hp], by simp [hrt]⟩ h

/-- A row that parses is applied and the loop moves to the next row. -/
theorem importCSV_cons_ok (r : CsvRow) (rest : List CsvRow) (s : Store)
    (h : RowParses r) :
    importCSV (r :: rest) s = importCSV rest ((importRow r s).getD s) := by
  obtain ⟨hq1, hp1, ht1⟩ := h
  obtain ⟨q, hq⟩ := Option.isSome_iff_exists.mp hq1
  obtain ⟨p, hp⟩ := Option.isSome_iff_exists.mp hp1
  obtain ⟨rt, hrt⟩ := Option.isSome_iff_exists.mp ht1
  have hr : ∃ s1, importRow r s = some s1 := by
    unfold importRow; rw [hq, hp, hrt]; exact ⟨_, rfl⟩
  obtain ⟨s1, hr⟩ := hr
  show (match importRow r s with
        | some s1 => importCSV rest s1
        | none => (s, some "Failed to import CSV"))
      = importCSV rest ((importRow r s).getD s)
  rw [hr]
  rfl

/-- Claim C10: the import loop applies rows strictly in file order and is
not atomic — when a later row fails to parse, the effects of the earlier
rows remain in the store, the failing row and all later rows are never
applied, and the failure surfaces as one error message. -/
theorem importCSV_abort_keeps_prefix (pre post : List CsvRow) (bad : CsvRow)
    (s : Store) (hpre : ∀ r ∈ pre, RowParses r) (hbad : ¬ RowParses bad) :
    importCSV (pre ++ bad :: post) s
      = (pre.foldl (fun t r => (importRow r t).getD t) s,
         some "Failed to import CSV") := by
  induction pre generalizing s with
  | nil =>
      simp only [List.nil_append, List.foldl_nil]
      unfold importCSV
      rw [importRow_eq_none bad s hbad]
  | cons r pre ih =>
      rw [List.cons_append,
        importCSV_cons_ok r _ s (hpre r (List.mem_cons_self r pre)),
        List.foldl_cons]
      exact ih _ (fun x hx => hpre x (List.mem_cons_of_mem r hx))

/-- Witness for C10: rows A, B, C where the qty of B is not numeric — A is
applied, B and C are not, and one error message is reported. -/
theorem importCSV_abort_keeps_prefix_witness :
    importCSV [⟨"A", some "T", some "2", some "3", some "3"⟩,
               ⟨"B", none, some "abc", none, none⟩,
               ⟨"C", none, none, none, none⟩] initStore
      = ([⟨"A", some "T", some "2", some "3", some "3"⟩].foldl
           (fun t r => (importRow r t).getD t) initStore,
         some "Failed to import CSV") :=
  importCSV_abort_keeps_prefix
    [⟨"A", some "T", some "2", some "3", some "3"⟩]
    [⟨"C", none, none, none, none⟩]
    ⟨"B", none, some "abc", none, none⟩ initStore
    (by decide) (by decide)

/-- Boolean side condition under which an operation can only store
non-negative quantities: created quantities and parsed import quantities
are non-negative (adjust, delete, and clear need no condition). -/
def nonNegOp : Op → Bool
  | .create _ _ q _ _ => 0 ≤ q
  | .imp rows => rows.all (fun r => (rowQty r).all (fun q => 0 ≤ q))
  | _ => true

/-- `update_quantity` clamps at 0, so it preserves non-negativity. -/
theorem qty_nonneg_update (i : Nat) (d : Int) (note : String) (s : Store)
    (hs : ∀ it ∈ s.items, 0 ≤ it.qty) :
    ∀ it ∈ (update_quantity i d note s).1.items, 0 ≤ it.qty := by
  unfold update_quantity
  cases hf : s.items.find? (fun x => x.id == i) with
  | none => exact hs
  | some a =>
      intro it hit
      simp only [List.mem_map] at hit
      obtain ⟨x, hx, rfl⟩ := hit
      by_cases hxi : (x.id == i) = true
      · simp only [hxi, if_true]
        exact le_max_right _ _
      · rw [if_neg (by simp [hxi])]
        exact hs x hx

/-- `add_item` with a non-negative quantity preserves non-negativity. -/
theorem qty_nonneg_add (n c : String) (q : Int) (p : Rat) (rt : Int)
    (s : Store) (hq : 0 ≤ q) (hs : ∀ it ∈ s.items, 0 ≤ it.qty) :
    ∀ it ∈ (add_item n c q p rt s).items, 0 ≤ it.qty := by
  intro it hit
  unfold add_item at hit
  simp only [List.mem_append, List.mem_singleton] at hit
  rcases hit with h | h
  · exact hs it h
  · subst h; exact hq

/-- One import row with a non-negative parsed qty preserves
non-negativity. -/
theorem qty_nonneg_importRow (r : CsvRow) (s s1 : Store)
    (h : importRow r s = some s1)
    (hq : (rowQty r).all (fun q => 0 ≤ q) = true)
    (hs : ∀ it ∈ s.items, 0 ≤ it.qty) :
    ∀ it ∈ s1.items, 0 ≤ it.qty := by
  by_cases hpar : RowParses r
  · obtain ⟨hq1, hp1, ht1⟩ := hpar
    obtain ⟨q, hq2⟩ := Option.isSome_iff_exists.mp hq1
    obtain ⟨p, hp2⟩ := Option.isSome_iff_exists.mp hp1
    obtain ⟨rt, ht2⟩ := Option.isSome_iff_exists.mp ht1
    have h0q : 0 ≤ q := by
      rw [hq2] at hq; simpa using hq
    cases hf : s.items.find? (fun it => it.name == r.name) with
    | some a =>
        have hsome : importRow r s
            = some (update_quantity a.id q "Imported from CSV" s).1 := by
          unfold importRow; rw [hq2, hp2, ht2, hf]
        rw [hsome] at h
        injection h with h
        subst h
        exact qty_nonneg_update a.id q "Imported from CSV" s hs
    | none =>
        have hsome : importRow r s
            = some (add_item r.name (rowCategory r) q p rt s) := by
          unfold importRow; rw [hq2, hp2, ht2, hf]
        rw [hsome] at h
        injection h with h
        subst h
        exact qty_nonneg_add r.name (rowCategory r) q p rt s h0q hs
  · rw [importRow_eq_none r s hpar] at h
    cases h

/-- A whole import with non-negative parsed quantities preserves
non-negativity. -/
theorem qty_nonneg_importCSV (rows : List CsvRow) (s : Store)
    (hrows : rows.all (fun r => (rowQty r).all (fun q => 0 ≤ q)) = true)
    (hs : ∀ it ∈ s.items, 0 ≤ it.qty) :
    ∀ it ∈ (importCSV rows s).1.items, 0 ≤ it.qty := by
  induction rows generalizing s with
  | nil => exact hs
  | cons r rest ih =>
      simp only [List.all_cons, Bool.and_eq_true] at hrows
      unfold importCSV
      cases hr : importRow r s with
      | none => exact hs
      | some s1 =>
          exact ih s1 hrows.2 (qty_nonneg_importRow r s s1 hr hrows.1 hs)

/-- Every store operation satisfying `nonNegOp` preserves non-negative
quantities. -/
theorem qty_nonneg_applyOp (op : Op) (s : Store) (hop : nonNegOp op = true)
    (hs : ∀ it ∈ s.items, 0 ≤ it.qty) :
    ∀ it ∈ (applyOp op s).items, 0 ≤ it.qty := by
  cases op with
  | create n c q p rt =>
      have hq : 0 ≤ q := by simpa [nonNegOp] using hop
      exact qty_nonneg_add n c q p rt s hq hs
  | adjust i d note => exact qty_nonneg_update i d note s hs
  | delete i =>
      intro it hit
      have hmem : it ∈ s.items := by
        simp only [applyOp, delete_item, delete_item_phase2,
          delete_item_phase1, List.mem_filter] at hit
        exact hit.1
      exact hs it hmem
  | imp rows =>
      have h : rows.all (fun r => (rowQty r).all (fun q => 0 ≤ q)) = true := by
        simpa [nonNegOp] using hop
      exact qty_nonneg_importCSV rows s h hs
  | clear =>
      intro it hit
      have hmem : it ∈ s.items := by
        simp only [applyOp, clear_all, List.mem_filter] at hit
        exact hit.1
      exact hs it hmem

/-- Sequence version of the preservation lemma. -/
theorem runOps_qty_nonneg (ops : List Op) (s : Store)
    (hops : ops.all nonNegOp = true) (hs : ∀ it ∈ s.items, 0 ≤ it.qty) :
    ∀ it ∈ (runOps ops s).items, 0 ≤ it.qty := by
  induction ops generalizing s with
  | nil => exact hs
  | cons op rest ih =>
      simp only [List.all_cons, Bool.and_eq_true] at hops
      exact ih (applyOp op s) hops.2 (qty_nonneg_applyOp op s hops.1 hs)

/-- Counterexample to claim C3 as stated: importing the CSV row
`("X", qty "-5")` against the empty store creates a new item via `add_item`
with quantity `-5` — the import route into `add_item` never clamps, so a
negative quantity is stored. -/
theorem quantity_nonneg_counterexample :
    ¬ (∀ it ∈ (runOps [Op.imp [⟨"X", none, some "-5", none, none⟩]]
        initStore).items, 0 ≤ it.qty) := by
  decide

/-- Claim C3 (amended): quantities stay non-negative under every sequence
of operations provided every created quantity and every parsed import
quantity is non-negative; `update_quantity` alone always clamps at 0. -/
theorem quantity_nonneg_of_nonneg_creates (ops : List Op)
    (hops : ops.all nonNegOp = true) :
    ∀ it ∈ (runOps ops initStore).items, 0 ≤ it.qty :=
  runOps_qty_nonneg ops initStore hops (by simp [initStore])

/-- Witness for C3 (amended): a five-operation run mixing create, a
negative adjustment, an import, a delete, and a clear keeps every stored
quantity non-negative. -/
theorem quantity_nonneg_of_nonneg_creates_witness :
    ([Op.create "A" "Misc" 2 1 3, Op.adjust 1 (-5) "Used",
      Op.imp [⟨"A", none, some "4", none, none⟩], Op.delete 2,
      Op.clear].all nonNegOp = true) ∧
    ∀ it ∈ (runOps [Op.create "A" "Misc" 2 1 3, Op.adjust 1 (-5) "Used",
        Op.imp [⟨"A", none, some "4", none, none⟩], Op.delete 2, Op.clear]
        initStore).items, 0 ≤ it.qty :=
  ⟨by decide, quantity_nonneg_of_nonneg_creates _ (by decide)⟩

/-- Witness for C9: after deleting only the item row of `A` (id 1), its
initial-stock transaction is an orphan. -/
theorem delete_item_phase_order_orphans_witness :
    delete_item 1 (add_item "A" "Misc" 2 1 3 initStore)
      = delete_item_phase2 1
          (delete_item_phase1 1 (add_item "A" "Misc" 2 1 3 initStore)) ∧
    (⟨1, 1, 2, "Initial stock: 2"⟩ : Txn)
      ∈ (delete_item_phase1 1 (add_item "A" "Misc" 2 1 3 initStore)).txns ∧
    ∀ it ∈ (delete_item_phase1 1 (add_item "A" "Misc" 2 1 3 initStore)).items,
      it.id ≠ (⟨1, 1, 2, "Initial stock: 2"⟩ : Txn).item_id :=
  delete_item_phase_order_orphans _ 1 ⟨1, 1, 2, "Initial stock: 2"⟩
    (by decide) rfl

end Inventory
